import Mathlib

/-!
Shallow embedding of the hardware-aware local-model benchmarking and
recommendation engine of this repository.

Sources embedded:
- the low-spec benchmark program (`LowSpecBenchmark`, `runLowSpecTest`,
  `assessOOMRisk`, `assessOutputQuality`, `calculateUsabilityScore`,
  `generateLowSpecSummary`, `findOptimalModelForUseCase`,
  `generateRecommendedConfig`, `getAvailableModels`);
- `tools/model_comparison.go` (`ModelResult`, `findBestModel`);
- `tools/uroboro_model_tester.go` (`generateConfigRecommendation`).

Modelling conventions:
- Go `float64` is modelled as `ℚ` (exact arithmetic in place of IEEE
  rounding; all constants in the source are small decimal literals).
- Go `int64` / `int` and `time.Duration` are modelled as `Int`
  (`time.Duration` counts nanoseconds).
- Go `len(s)` (bytes) is `goLen` via `String.utf8ByteSize`.
- Go maps are modelled as association lists in first-insertion order, a
  fixed refinement of Go's unspecified map iteration order; the theorems
  proved below are insensitive to that order.
- External effects (spawning the inference process, sampling
  `/proc/meminfo`) are passed in as an explicit observation record.
-/

/-- Whether `sub` occurs as a contiguous run inside the second list. -/
def charsContain (sub : List Char) : List Char → Bool
  | [] => decide (sub = [])
  | c :: t => sub.isPrefixOf (c :: t) || charsContain sub t

/-- Go `strings.Contains(s, sub)`. -/
def goContains (s sub : String) : Bool :=
  charsContain sub.data s.data

/-- Go `strings.ToLower(s)` (ASCII case mapping). -/
def goToLower (s : String) : String :=
  String.mk (s.data.map Char.toLower)

/-- Go `strings.ToUpper(s)` (ASCII case mapping). -/
def goToUpper (s : String) : String :=
  String.mk (s.data.map Char.toUpper)

/-- Split a character list at newline characters. -/
def charsLines : List Char → List (List Char)
  | [] => [[]]
  | c :: t =>
    if c = '\n' then [] :: charsLines t
    else
      match charsLines t with
      | [] => [[c]]
      | h :: r => (c :: h) :: r

/-- Go `strings.Split(s, "\n")`. -/
def goLines (s : String) : List String :=
  (charsLines s.data).map String.mk

/-- Go `strings.TrimSpace(s)`. -/
def goTrim (s : String) : String :=
  String.mk (((s.data.dropWhile Char.isWhitespace).reverse.dropWhile
    Char.isWhitespace).reverse)

/-- Accumulating worker for `goFields`. -/
def charsFields (acc : List Char) : List Char → List (List Char)
  | [] => if acc.isEmpty then [] else [acc.reverse]
  | c :: t =>
    if Char.isWhitespace c then
      if acc.isEmpty then charsFields [] t
      else acc.reverse :: charsFields [] t
    else charsFields (c :: acc) t

/-- Go `strings.Fields(s)`: the whitespace-separated fields of `s`. -/
def goFields (s : String) : List String :=
  (charsFields [] s.data).map String.mk

/-- Go `len(s)` (the byte length of the string). -/
def goLen (s : String) : Int :=
  (s.utf8ByteSize : Int)

/-- Go `time.Duration.Seconds()`: a nanosecond count as seconds. -/
def durationSeconds (d : Int) : ℚ :=
  (d : ℚ) / 1000000000

/-- `HardwareProfile` of the low-spec benchmark (defaults are Go zero values). -/
structure HardwareProfile where
  DeviceName : String := ""
  OS : String := ""
  Architecture : String := ""
  CPUCores : Int := 0
  TotalRAM : Int := 0
  AvailableRAM : Int := 0
  StorageType : String := ""
  ThermalProfile : String := ""
  PowerProfile : String := ""
  Notes : String := ""
deriving Repr, DecidableEq

/-- `TestScenario` of the low-spec benchmark. -/
structure TestScenario where
  Name : String := ""
  Description : String := ""
  UseCase : String := ""
  Prompt : String := ""
  MaxTokens : Int := 0
  Priority : String := ""
deriving Repr, DecidableEq

/-- `BenchmarkResult` of the low-spec benchmark (the `Timestamp` field,
a wall-clock time stamp, is not modelled; defaults are Go zero values). -/
structure BenchmarkResult where
  Model : String := ""
  ModelSize : String := ""
  Quantization : String := ""
  TestCase : String := ""
  Prompt : String := ""
  Output : String := ""
  Success : Bool := false
  Error : String := ""
  ResponseTime : Int := 0
  TimeToFirstToken : Int := 0
  TokensPerSecond : ℚ := 0
  PeakMemoryMB : Int := 0
  AvgCPUPercent : ℚ := 0
  MemoryEfficiency : ℚ := 0
  ThermalThrottling : Bool := false
  SwapUsed : Bool := false
  OOMRisk : String := ""
  BatteryImpact : String := ""
  OutputLength : Int := 0
  QualityScore : ℚ := 0
  UsabilityScore : ℚ := 0
deriving Repr, DecidableEq

/-- `assessOOMRisk(memoryUsed, availableMemory)` from the low-spec benchmark. -/
def assessOOMRisk (memoryUsed availableMemory : Int) : String :=
  if memoryUsed ≤ 0 ∨ availableMemory ≤ 0 then "unknown"
  else if (memoryUsed : ℚ) / (availableMemory : ℚ) < 1/2 then "low"
  else if (memoryUsed : ℚ) / (availableMemory : ℚ) < 4/5 then "medium"
  else "high"

/-- `assessBatteryImpact(responseTime, memoryUsed, powerProfile)` from the
low-spec benchmark. -/
def assessBatteryImpact (responseTime : Int) (memoryUsed : Int)
    (powerProfile : String) : String :=
  if powerProfile ≠ "battery" then "n/a"
  else if durationSeconds responseTime + (memoryUsed : ℚ) / 1000 < 5 then "minimal"
  else if durationSeconds responseTime + (memoryUsed : ℚ) / 1000 < 15 then "moderate"
  else "high"

/-- `assessThermalThrottling(responseTime, thermalProfile)` from the low-spec
benchmark. -/
def assessThermalThrottling (responseTime : Int) (thermalProfile : String) : Bool :=
  let expectedTime : Int :=
    if thermalProfile = "mobile" then 10 * 1000000000
    else if thermalProfile = "laptop" then 8 * 1000000000
    else if thermalProfile = "desktop" then 5 * 1000000000
    else 3 * 1000000000
  decide (expectedTime * 2 < responseTime)

/-- The expected-length switch of `assessOutputQuality` (characters per
use case, default 200). -/
def expectedLengthFor (useCase : String) : Int :=
  if useCase = "capture" then 100
  else if useCase = "summary" then 200
  else if useCase = "social" then 150
  else if useCase = "devlog" then 400
  else if useCase = "blog" then 600
  else 200

/-- `assessOutputQuality(output, useCase)` from the low-spec benchmark:
expected length per use case, then a five-band score on the
actual-to-expected length quotient. -/
def assessOutputQuality (output useCase : String) : ℚ :=
  let length : Int := goLen output
  if (length : ℚ) / (expectedLengthFor useCase : ℚ) < 3/10 then 1
  else if (length : ℚ) / (expectedLengthFor useCase : ℚ) < 7/10 then 5/2
  else if (length : ℚ) / (expectedLengthFor useCase : ℚ) ≤ 3/2 then 4
  else if (length : ℚ) / (expectedLengthFor useCase : ℚ) ≤ 2 then 3
  else 2

/-- Spec-side definition, for refinement comparison with
`assessOutputQuality`: the five-band length-quotient value for a given
output byte length and use case, depending on nothing else. -/
def lengthBandScore (length : Int) (useCase : String) : ℚ :=
  if (length : ℚ) / (expectedLengthFor useCase : ℚ) < 3/10 then 1
  else if (length : ℚ) / (expectedLengthFor useCase : ℚ) < 7/10 then 5/2
  else if (length : ℚ) / (expectedLengthFor useCase : ℚ) ≤ 3/2 then 4
  else if (length : ℚ) / (expectedLengthFor useCase : ℚ) ≤ 2 then 3
  else 2

/-- `calculateUsabilityScore(responseTime, qualityScore, priority)` from the
low-spec benchmark. -/
def calculateUsabilityScore (responseTime : Int) (qualityScore : ℚ)
    (priority : String) : ℚ :=
  let timeScore : ℚ := 5 - durationSeconds responseTime / 10
  let timeScore := if timeScore < 1 then 1 else timeScore
  if priority = "speed" then 7/10 * timeScore + 3/10 * qualityScore
  else if priority = "quality" then 3/10 * timeScore + 7/10 * qualityScore
  else if priority = "memory" then 1/2 * timeScore + 1/2 * qualityScore
  else 1/2 * timeScore + 1/2 * qualityScore

/-- `inferModelSize(model)` from the low-spec benchmark. -/
def inferModelSize (model : String) : String :=
  let model := goToLower model
  if goContains model "3b" then "3b"
  else if goContains model "7b" then "7b"
  else if goContains model "13b" then "13b"
  else if goContains model "30b" || goContains model "33b" then "30b+"
  else "unknown"

/-- `inferQuantization(model)` from the low-spec benchmark. -/
def inferQuantization (model : String) : String :=
  let model := goToLower model
  if goContains model "q4" || goContains model "int4" then "int4"
  else if goContains model "q8" || goContains model "int8" then "int8"
  else if goContains model "fp16" then "fp16"
  else "fp16"

/-- External observations consumed by one `runLowSpecTest` invocation: the
outcome of the spawned `ollama run` process (error string or raw standard
output), its wall-clock duration in nanoseconds, and the two
`getCurrentMemoryUsage` samples (system `MemAvailable` in MB) taken before
the process starts and after it exits. -/
structure ExecObservation where
  execResult : Except String String
  responseTime : Int
  initialMemory : Int
  finalMemory : Int
deriving Repr

/-- `runLowSpecTest(model, scenario, profile)` from the low-spec benchmark,
with the external process effects passed in as `obs`. -/
def runLowSpecTest (model : String) (scenario : TestScenario)
    (profile : HardwareProfile) (obs : ExecObservation) : BenchmarkResult :=
  let responseTime := obs.responseTime
  let peak := obs.finalMemory - obs.initialMemory
  let base : BenchmarkResult :=
    { Model := model, TestCase := scenario.Name, Prompt := scenario.Prompt,
      ModelSize := inferModelSize model, Quantization := inferQuantization model,
      ResponseTime := responseTime, PeakMemoryMB := peak }
  match obs.execResult with
  | Except.error e =>
      { base with
        Success := false,
        Error := e,
        OOMRisk := assessOOMRisk peak profile.AvailableRAM }
  | Except.ok raw =>
      let output := goTrim raw
      let outputLength := goLen output
      let tokensPerSecond : ℚ :=
        if 0 < outputLength ∧ 0 < responseTime then
          ((outputLength : ℚ) / 4) / durationSeconds responseTime
        else 0
      let memoryEfficiency : ℚ :=
        if 0 < peak then (outputLength : ℚ) / (peak : ℚ) else 0
      let quality := assessOutputQuality output scenario.UseCase
      { base with
        Success := true,
        Output := output,
        OutputLength := outputLength,
        TokensPerSecond := tokensPerSecond,
        OOMRisk := assessOOMRisk peak profile.AvailableRAM,
        BatteryImpact := assessBatteryImpact responseTime peak profile.PowerProfile,
        SwapUsed := decide (profile.AvailableRAM < peak),
        ThermalThrottling := assessThermalThrottling responseTime profile.ThermalProfile,
        MemoryEfficiency := memoryEfficiency,
        QualityScore := quality,
        UsabilityScore := calculateUsabilityScore responseTime quality scenario.Priority }

/-- The per-result penalized score computed inside
`findOptimalModelForUseCase`: the usability score minus 2 for high OOM
risk on sub-8192MB devices, minus 1 for high battery impact, plus 0.5
when no thermal throttling was suspected. -/
def penalizedScore (profile : HardwareProfile) (result : BenchmarkResult) : ℚ :=
  let score := result.UsabilityScore
  let score :=
    if profile.AvailableRAM < 8192 ∧ result.OOMRisk = "high" then score - 2 else score
  let score := if result.BatteryImpact = "high" then score - 1 else score
  if result.ThermalThrottling = false then score + 1/2 else score

/-- One iteration of the selection loop of `findOptimalModelForUseCase`:
keep the running best unless the current result's penalized score is
strictly greater. -/
def findOptimalStep (profile : HardwareProfile) (best : String × ℚ)
    (result : BenchmarkResult) : String × ℚ :=
  if penalizedScore profile result > best.2 then
    (result.Model, penalizedScore profile result)
  else best

/-- `findOptimalModelForUseCase(results, profile)` from the low-spec
benchmark: the model of the first result whose penalized score strictly
exceeds every earlier one, starting from best score 0. -/
def findOptimalModelForUseCase (results : List BenchmarkResult)
    (profile : HardwareProfile) : String :=
  match results with
  | [] => ""
  | _ :: _ => (results.foldl (findOptimalStep profile) ("", 0)).1

/-- Insertion into the grouping map of `generateLowSpecSummary`, modelled
as an association list in first-insertion key order. -/
def insertGrouped (m : List (String × List BenchmarkResult)) (key : String)
    (r : BenchmarkResult) : List (String × List BenchmarkResult) :=
  match m with
  | [] => [(key, [r])]
  | (k, rs) :: rest =>
    if k = key then (k, rs ++ [r]) :: rest
    else (k, rs) :: insertGrouped rest key r

/-- One iteration of the grouping loop of `generateLowSpecSummary`: a
successful result is appended to the group keyed by
`strings.ToLower(result.TestCase)` (the Go code names this key `useCase`
although it is the lowercased scenario name). -/
def groupStep (m : List (String × List BenchmarkResult)) (r : BenchmarkResult) :
    List (String × List BenchmarkResult) :=
  if r.Success = true then insertGrouped m (goToLower r.TestCase) r else m

/-- The grouping phase of `generateLowSpecSummary`. -/
def groupSuccessfulByTestCase (results : List BenchmarkResult) :
    List (String × List BenchmarkResult) :=
  results.foldl groupStep []

/-- One iteration of the winner-selection loop of
`generateLowSpecSummary`: record the group's best model unless it is
empty. -/
def collectOptimalStep (profile : HardwareProfile) (acc : List (String × String))
    (kv : String × List BenchmarkResult) : List (String × String) :=
  let bestModel := findOptimalModelForUseCase kv.2 profile
  if bestModel ≠ "" then acc ++ [(kv.1, bestModel)] else acc

/-- The `OptimalModels` map built by `generateLowSpecSummary`, as an
association list in group order (a fixed refinement of Go map iteration
order; the properties proved about it are order-independent). -/
def generateLowSpecSummaryOptimalModels (results : List BenchmarkResult)
    (profile : HardwareProfile) : List (String × String) :=
  (groupSuccessfulByTestCase results).foldl (collectOptimalStep profile) []

/-- `RecommendedConfig` of the low-spec benchmark (defaults are Go zero
values; the environment-variable map is an association list). -/
structure RecommendedConfig where
  PrimaryModel : String := ""
  FallbackModel : String := ""
  ContextLength : Int := 0
  ConcurrentRequests : Int := 0
  MemoryBuffer : Int := 0
  SwapRecommendation : String := ""
  EnvironmentVars : List (String × String) := []
deriving Repr, DecidableEq

/-- `generateRecommendedConfig(results, profile)` from the low-spec
benchmark. -/
def generateRecommendedConfig (results : List BenchmarkResult)
    (profile : HardwareProfile) : RecommendedConfig :=
  let best := results.foldl
    (fun (b : String × ℚ) r =>
      if r.Success = true ∧ r.UsabilityScore > b.2 then (r.Model, r.UsabilityScore)
      else b)
    ("", 0)
  let config : RecommendedConfig := { PrimaryModel := best.1 }
  let config :=
    if profile.AvailableRAM < 8192 then
      { config with
        ContextLength := 2048,
        ConcurrentRequests := 1,
        MemoryBuffer := 1024,
        SwapRecommendation := "Enable 4GB swap file" }
    else
      { config with
        ContextLength := 4096,
        ConcurrentRequests := 2,
        MemoryBuffer := 2048,
        SwapRecommendation := "Optional" }
  let environmentVars :=
    [("OLLAMA_MAX_LOADED_MODELS", "1"), ("OLLAMA_NUM_PARALLEL", "1")]
  let environmentVars :=
    if profile.ThermalProfile = "mobile" ∨ profile.ThermalProfile = "laptop" then
      environmentVars ++ [("OLLAMA_FLASH_ATTENTION", "1")]
    else environmentVars
  { config with EnvironmentVars := environmentVars }

/-- The part of `UroboroSummary` (tools/uroboro_model_tester.go) read by
`generateConfigRecommendation`: the best-model-per-use-case map, as an
association list. -/
structure UroboroSummary where
  BestModelPerUseCase : List (String × String) := []
deriving Repr, DecidableEq

/-- `UroboroConfigRecommendation` of tools/uroboro_model_tester.go, with
its maps as association lists. -/
structure UroboroConfigRecommendation where
  PrimaryModel : String := ""
  FallbackChain : List String := []
  UseCaseModels : List (String × String) := []
  TimeoutConfig : List (String × Int) := []
  EnvironmentVars : List (String × String) := []
deriving Repr, DecidableEq

/-- Association-list lookup (the Go `m[k]` comma-ok form). -/
def assocLookup (m : List (String × String)) (k : String) : Option String :=
  match m with
  | [] => none
  | (k0, v) :: rest => if k0 = k then some v else assocLookup rest k

/-- `generateConfigRecommendation(summary)` from
tools/uroboro_model_tester.go. -/
def generateConfigRecommendation (summary : UroboroSummary) :
    UroboroConfigRecommendation :=
  let primaryModel :=
    match assocLookup summary.BestModelPerUseCase "capture" with
    | some bestCapture => bestCapture
    | none => "mistral:latest"
  let useCaseModels := summary.BestModelPerUseCase
  let timeoutConfig := summary.BestModelPerUseCase.filterMap
    (fun kv =>
      if kv.1 = "capture" then some (kv.1, (15 : Int))
      else if kv.1 = "social" then some (kv.1, (30 : Int))
      else if kv.1 = "devlog" then some (kv.1, (45 : Int))
      else if kv.1 = "blog" then some (kv.1, (60 : Int))
      else none)
  let fallbacks := ["mistral:latest", "llama2:7b", "orca-mini:3b"]
  let environmentVars :=
    ("UROBORO_MODEL", primaryModel)
      :: useCaseModels.map (fun kv => ("UROBORO_MODEL_" ++ goToUpper kv.1, kv.2))
  { PrimaryModel := primaryModel, FallbackChain := fallbacks,
    UseCaseModels := useCaseModels, TimeoutConfig := timeoutConfig,
    EnvironmentVars := environmentVars }

/-- One line of `ollama list` output as handled by `getAvailableModels`:
blank lines are skipped, the first whitespace-separated field is the model
name, and names containing "embedding" are filtered out. -/
def parseModelLine (line : String) : Option String :=
  if goTrim line = "" then none
  else
    match goFields line with
    | [] => none
    | name :: _ => if goContains name "embedding" then none else some name

/-- The pure parsing core of `getAvailableModels` from the low-spec
benchmark: `output` is the raw standard output of the external
`ollama list` command (on command failure the Go code returns the empty
list before parsing; that path is not modelled). The first line is the
header and is skipped. -/
def getAvailableModels (output : String) : List String :=
  ((goLines output).drop 1).filterMap parseModelLine

/-- `ModelResult` of tools/model_comparison.go (`Timestamp` not modelled;
defaults are Go zero values). -/
structure ModelResult where
  Model : String := ""
  Prompt : String := ""
  Output : String := ""
  ResponseTime : Int := 0
  Success : Bool := false
  Error : String := ""
  OutputLength : Int := 0
deriving Repr, DecidableEq

/-- The anonymous per-model aggregate of `findBestModel`
(tools/model_comparison.go). -/
structure ModelPerf where
  successRate : ℚ := 0
  avgResponseTime : Int := 0
  count : Int := 0
deriving Repr, DecidableEq

/-- The per-result update of `findBestModel`'s accumulation loop. -/
def updatePerf (p : ModelPerf) (r : ModelResult) : ModelPerf :=
  let p := { p with count := p.count + 1 }
  if r.Success = true then
    { p with
      successRate := p.successRate + 1,
      avgResponseTime := p.avgResponseTime + r.ResponseTime }
  else p

/-- Lookup-update-store on the `modelPerf` map of `findBestModel`,
modelled as an association list in first-insertion key order. -/
def insertPerf (m : List (String × ModelPerf)) (r : ModelResult) :
    List (String × ModelPerf) :=
  match m with
  | [] => [(r.Model, updatePerf {} r)]
  | (k, p) :: rest =>
    if k = r.Model then (k, updatePerf p r) :: rest
    else (k, p) :: insertPerf rest r

/-- The finalize pass of `findBestModel`: divide the success count by the
test count, and divide the accumulated response time by the success count
(the Go `time.Duration(successRate * count)` conversion truncates the
non-negative product, hence the floor). -/
def finalizePerf (p : ModelPerf) : ModelPerf :=
  let p := { p with successRate := p.successRate / (p.count : ℚ) }
  if p.successRate > 0 then
    { p with avgResponseTime :=
        p.avgResponseTime / Int.floor (p.successRate * (p.count : ℚ)) }
  else p

/-- `findBestModel(results)` from tools/model_comparison.go: the model
whose `successRate - avgResponseTimeSeconds/100` score strictly exceeds
every earlier one, starting from best score -1. -/
def findBestModel (results : List ModelResult) : String :=
  match results with
  | [] => ""
  | _ :: _ =>
    let modelPerf :=
      (results.foldl insertPerf []).map (fun kv => (kv.1, finalizePerf kv.2))
    (modelPerf.foldl
      (fun (best : String × ℚ) kv =>
        if kv.2.successRate - durationSeconds kv.2.avgResponseTime / 100 > best.2 then
          (kv.1, kv.2.successRate - durationSeconds kv.2.avgResponseTime / 100)
        else best)
      ("", -1)).1

/-- A hardware profile with ample RAM (no OOM penalty applies). -/
def profileDesktop : HardwareProfile := { AvailableRAM := 16384 }

/-- A successful benchmark result used as concrete input: penalized score
3 + 0.5 = 3.5 under `profileDesktop`. -/
def resultTieA : BenchmarkResult :=
  { Model := "A", TestCase := "Ultra-Fast Capture", Success := true,
    UsabilityScore := 3, ResponseTime := 20000000000, OOMRisk := "low",
    BatteryImpact := "minimal", ThermalThrottling := false }

/-- Like `resultTieA` but a different model with half the response time. -/
def resultTieB : BenchmarkResult :=
  { resultTieA with Model := "B", ResponseTime := 10000000000 }

/-- A successful result from the scenario named "Ultra-Fast Capture"
(whose use-case tag is "capture"). -/
def resultCaptureScenario : BenchmarkResult :=
  { Model := "m", TestCase := "Ultra-Fast Capture", Success := true,
    UsabilityScore := 3, OOMRisk := "low", BatteryImpact := "minimal",
    ThermalThrottling := false }

/-- A result list in which the only model fails every invocation. -/
def resultsAllFailing : List ModelResult :=
  [{ Model := "m", Success := false, ResponseTime := 45000000000,
     Error := "context deadline exceeded" },
   { Model := "m", Success := false, ResponseTime := 45000000000,
     Error := "context deadline exceeded" }]

/-- A benchmark result list whose only entry fails. -/
def lowSpecAllFailing : List BenchmarkResult :=
  [{ Model := "m", TestCase := "Ultra-Fast Capture", Success := false,
     Error := "exit status 1" }]

/-- A result list with one successful entry, for the config recommender. -/
def configResults : List BenchmarkResult :=
  [{ Model := "m", TestCase := "Memory-Efficient Summary", Success := true,
     UsabilityScore := 4 }]

/-- The lower clamp in `calculateUsabilityScore` is a maximum with 1. -/
theorem ifLtOne_eq_max (t : ℚ) : (if t < 1 then (1 : ℚ) else t) = max 1 t := by
  by_cases h : t < 1
  · rw [if_pos h, max_eq_left h.le]
  · rw [if_neg h, max_eq_right (not_lt.mp h)]

/-- C4: for positive memory delta and positive available RAM,
`assessOOMRisk` returns "low" iff the quotient is below 1/2, "medium" iff
it lies in [1/2, 4/5), and "high" iff it is at least 4/5; in particular a
3600 MB delta against 4096 MB available RAM is classified "high". -/
theorem assessOOMRisk_band_values (m a : Int) (hm : 0 < m) (ha : 0 < a) :
    ((assessOOMRisk m a = "low" ↔ (m : ℚ) / (a : ℚ) < 1/2)
      ∧ (assessOOMRisk m a = "medium" ↔
          (1/2 ≤ (m : ℚ) / (a : ℚ) ∧ (m : ℚ) / (a : ℚ) < 4/5))
      ∧ (assessOOMRisk m a = "high" ↔ 4/5 ≤ (m : ℚ) / (a : ℚ)))
    ∧ assessOOMRisk 3600 4096 = "high" := by
  refine ⟨?_, by norm_num [assessOOMRisk]⟩
  have hguard : ¬ (m ≤ 0 ∨ a ≤ 0) := by
    push_neg
    exact ⟨hm, ha⟩
  unfold assessOOMRisk
  rw [if_neg hguard]
  by_cases h2 : (m : ℚ) / (a : ℚ) < 1/2
  · rw [if_pos h2]
    refine ⟨⟨fun _ => h2, fun _ => rfl⟩, ?_, ?_⟩
    · constructor
      · intro hx
        exact absurd hx (by decide)
      · intro hc
        exact absurd h2 (not_lt.mpr hc.1)
    · constructor
      · intro hx
        exact absurd hx (by decide)
      · intro hc
        exact absurd h2 (not_lt.mpr (by linarith))
  · rw [if_neg h2]
    by_cases h3 : (m : ℚ) / (a : ℚ) < 4/5
    · rw [if_pos h3]
      refine ⟨?_, ⟨fun _ => ⟨not_lt.mp h2, h3⟩, fun _ => rfl⟩, ?_⟩
      · constructor
        · intro hx
          exact absurd hx (by decide)
        · intro hc
          exact absurd hc h2
      · constructor
        · intro hx
          exact absurd hx (by decide)
        · intro hc
          exact absurd h3 (not_lt.mpr hc)
    · rw [if_neg h3]
      refine ⟨?_, ?_, ⟨fun _ => not_lt.mp h3, fun _ => rfl⟩⟩
      · constructor
        · intro hx
          exact absurd hx (by decide)
        · intro hc
          exact absurd hc h2
      · constructor
        · intro hx
          exact absurd hx (by decide)
        · intro hc
          exact absurd hc.2 h3

/-- Witness for `assessOOMRisk_band_values` at memory delta 3 and
available RAM 10 (quotient 3/10, band "low"). -/
theorem assessOOMRisk_band_values_witness :
    (0 : Int) < 3 ∧ (0 : Int) < 10
      ∧ ((assessOOMRisk 3 10 = "low" ↔ (3 : ℚ) / (10 : ℚ) < 1/2)
          ∧ (assessOOMRisk 3 10 = "medium" ↔
              (1/2 ≤ (3 : ℚ) / (10 : ℚ) ∧ (3 : ℚ) / (10 : ℚ) < 4/5))
          ∧ (assessOOMRisk 3 10 = "high" ↔ 4/5 ≤ (3 : ℚ) / (10 : ℚ)))
      ∧ assessOOMRisk 3600 4096 = "high" :=
  ⟨by decide, by decide,
    (assessOOMRisk_band_values 3 10 (by decide) (by decide)).1,
    (assessOOMRisk_band_values 3 10 (by decide) (by decide)).2⟩

/-- C9: `assessOOMRisk` returns the sentinel "unknown" whenever the
recorded memory delta or the available RAM is non-positive, and "unknown"
lies outside the documented low/medium/high value set. -/
theorem assessOOMRisk_nonpositive_unknown (m a : Int) (h : m ≤ 0 ∨ a ≤ 0) :
    assessOOMRisk m a = "unknown"
      ∧ ("unknown" : String) ≠ "low"
      ∧ ("unknown" : String) ≠ "medium"
      ∧ ("unknown" : String) ≠ "high" := by
  refine ⟨?_, by decide, by decide, by decide⟩
  unfold assessOOMRisk
  rw [if_pos h]

/-- Witness for `assessOOMRisk_nonpositive_unknown` at a negative memory
delta of -1000 MB against 4096 MB available RAM. -/
theorem assessOOMRisk_nonpositive_unknown_witness :
    ((-1000 : Int) ≤ 0 ∨ (4096 : Int) ≤ 0)
      ∧ (assessOOMRisk (-1000) 4096 = "unknown"
          ∧ ("unknown" : String) ≠ "low"
          ∧ ("unknown" : String) ≠ "medium"
          ∧ ("unknown" : String) ≠ "high") :=
  ⟨Or.inl (by decide), assessOOMRisk_nonpositive_unknown (-1000) 4096 (Or.inl (by decide))⟩

/-- C8: `calculateUsabilityScore` is the weighted sum of the clamped time
term `max 1 (5 - seconds/10)` and the quality score, with weights
(0.7, 0.3) for the speed priority, (0.3, 0.7) for quality and
(0.5, 0.5) for memory. -/
theorem calculateUsabilityScore_weighted_sum (d : Int) (q : ℚ) :
    calculateUsabilityScore d q "speed"
        = 7/10 * max 1 (5 - durationSeconds d / 10) + 3/10 * q
      ∧ calculateUsabilityScore d q "quality"
        = 3/10 * max 1 (5 - durationSeconds d / 10) + 7/10 * q
      ∧ calculateUsabilityScore d q "memory"
        = 1/2 * max 1 (5 - durationSeconds d / 10) + 1/2 * q := by
  refine ⟨?_, ?_, ?_⟩ <;> unfold calculateUsabilityScore
  · rw [if_pos rfl, ifLtOne_eq_max]
  · rw [if_neg (by decide), if_pos rfl, ifLtOne_eq_max]
  · rw [if_neg (by decide), if_neg (by decide), if_pos rfl, ifLtOne_eq_max]

/-- Evaluation helper: the penalized score of `resultCaptureScenario`
under `profileDesktop` is 3 + 0.5 = 3.5. -/
theorem penalizedScore_capture_eval :
    penalizedScore profileDesktop resultCaptureScenario = 7/2 := by
  simp only [penalizedScore, resultCaptureScenario, profileDesktop]
  norm_num
  rw [if_neg (by decide)]
  norm_num

/-- Evaluation helper: `resultCaptureScenario` wins its singleton group. -/
theorem findOptimal_capture_eval :
    findOptimalModelForUseCase [resultCaptureScenario] profileDesktop = "m" := by
  simp only [findOptimalModelForUseCase, List.foldl_cons, List.foldl_nil, findOptimalStep]
  rw [penalizedScore_capture_eval]
  rw [if_pos (by norm_num)]
  rfl

/-- Each step of the selection loop keeps the running model name or takes
the current result's. -/
theorem findOptimalStep_fst (profile : HardwareProfile) (b : String × ℚ)
    (r : BenchmarkResult) :
    (findOptimalStep profile b r).1 = r.Model ∨ (findOptimalStep profile b r).1 = b.1 := by
  unfold findOptimalStep
  split
  · exact Or.inl rfl
  · exact Or.inr rfl

/-- The selection fold returns the seed's model name or one of the list's. -/
theorem foldl_findOptimalStep_mem (profile : HardwareProfile) :
    ∀ (l : List BenchmarkResult) (b : String × ℚ),
      (l.foldl (findOptimalStep profile) b).1 = b.1
        ∨ ∃ r ∈ l, (l.foldl (findOptimalStep profile) b).1 = r.Model := by
  intro l
  induction l with
  | nil => intro b; exact Or.inl rfl
  | cons x xs ih =>
    intro b
    rw [List.foldl_cons]
    rcases ih (findOptimalStep profile b x) with h | ⟨r, hr, h⟩
    · rcases findOptimalStep_fst profile b x with h2 | h2
      · exact Or.inr ⟨x, List.mem_cons_self _ _, by rw [h, h2]⟩
      · exact Or.inl (by rw [h, h2])
    · exact Or.inr ⟨r, List.mem_cons_of_mem _ hr, h⟩

/-- `findOptimalModelForUseCase` returns the empty string or the model of
one of its input results. -/
theorem findOptimalModelForUseCase_mem (results : List BenchmarkResult)
    (profile : HardwareProfile) :
    findOptimalModelForUseCase results profile = ""
      ∨ ∃ r ∈ results, findOptimalModelForUseCase results profile = r.Model := by
  cases results with
  | nil => exact Or.inl rfl
  | cons x xs =>
    rcases foldl_findOptimalStep_mem profile (x :: xs) ("", 0) with h | h
    · exact Or.inl h
    · exact Or.inr h

/-- `insertGrouped` preserves a property of all stored results. -/
theorem insertGrouped_forall (P : BenchmarkResult → Prop) :
    ∀ (m : List (String × List BenchmarkResult)) (key : String) (r0 : BenchmarkResult),
      (∀ kv ∈ m, ∀ r ∈ kv.2, P r) → P r0 →
      ∀ kv ∈ insertGrouped m key r0, ∀ r ∈ kv.2, P r := by
  intro m
  induction m with
  | nil =>
    intro key r0 _ h0 kv hkv r hr
    simp only [insertGrouped, List.mem_singleton] at hkv
    subst hkv
    simp only [List.mem_singleton] at hr
    subst hr
    exact h0
  | cons hd tl ih =>
    intro key r0 hm h0 kv hkv r hr
    obtain ⟨k, rs⟩ := hd
    simp only [insertGrouped] at hkv
    by_cases hk : k = key
    · rw [if_pos hk] at hkv
      rcases List.mem_cons.mp hkv with h | h
      · subst h
        rcases List.mem_append.mp hr with h2 | h2
        · exact hm (k, rs) (List.mem_cons_self _ _) r h2
        · have : r = r0 := by simpa using h2
          rw [this]
          exact h0
      · exact hm kv (List.mem_cons_of_mem _ h) r hr
    · rw [if_neg hk] at hkv
      rcases List.mem_cons.mp hkv with h | h
      · subst h
        exact hm (k, rs) (List.mem_cons_self _ _) r hr
      · exact ih key r0 (fun kv2 hkv2 => hm kv2 (List.mem_cons_of_mem _ hkv2)) h0 kv h r hr

/-- The grouping fold only stores results that satisfy any property held
by the successful elements of its input. -/
theorem foldl_groupStep_forall (P : BenchmarkResult → Prop) :
    ∀ (l : List BenchmarkResult) (acc : List (String × List BenchmarkResult)),
      (∀ kv ∈ acc, ∀ r ∈ kv.2, P r) →
      (∀ r ∈ l, r.Success = true → P r) →
      ∀ kv ∈ l.foldl groupStep acc, ∀ r ∈ kv.2, P r := by
  intro l
  induction l with
  | nil =>
    intro acc hacc _
    simpa using hacc
  | cons x xs ih =>
    intro acc hacc hl
    rw [List.foldl_cons]
    refine ih (groupStep acc x) ?_ ?_
    · unfold groupStep
      by_cases hs : x.Success = true
      · rw [if_pos hs]
        exact insertGrouped_forall P acc (goToLower x.TestCase) x hacc
          (hl x (List.mem_cons_self _ _) hs)
      · rw [if_neg hs]
        exact hacc
    · intro r hr hsr
      exact hl r (List.mem_cons_of_mem _ hr) hsr

/-- Every result stored in a group of `groupSuccessfulByTestCase` is a
successful member of the input list. -/
theorem groupSuccessfulByTestCase_forall (P : BenchmarkResult → Prop)
    (results : List BenchmarkResult)
    (h : ∀ r ∈ results, r.Success = true → P r) :
    ∀ kv ∈ groupSuccessfulByTestCase results, ∀ r ∈ kv.2, P r :=
  foldl_groupStep_forall P results []
    (fun _ hkv => absurd hkv (List.not_mem_nil _)) h

/-- The winner-collection fold only emits pairs built from its input
groups (or pairs already in the accumulator). -/
theorem foldl_collectOptimalStep_forall (profile : HardwareProfile)
    (Q : String × String → Prop) :
    ∀ (l : List (String × List BenchmarkResult)) (acc : List (String × String)),
      (∀ kv ∈ l, findOptimalModelForUseCase kv.2 profile ≠ "" →
        Q (kv.1, findOptimalModelForUseCase kv.2 profile)) →
      (∀ p ∈ acc, Q p) →
      ∀ p ∈ l.foldl (collectOptimalStep profile) acc, Q p := by
  intro l
  induction l with
  | nil =>
    intro acc _ hacc
    simpa using hacc
  | cons x xs ih =>
    intro acc hl hacc
    rw [List.foldl_cons]
    refine ih (collectOptimalStep profile acc x) ?_ ?_
    · intro kv hkv hne
      exact hl kv (List.mem_cons_of_mem _ hkv) hne
    · intro p hp
      simp only [collectOptimalStep] at hp
      by_cases hcond : findOptimalModelForUseCase x.2 profile ≠ ""
      · rw [if_pos hcond] at hp
        rcases List.mem_append.mp hp with h | h
        · exact hacc p h
        · have : p = (x.1, findOptimalModelForUseCase x.2 profile) := by simpa using h
          rw [this]
          exact hl x (List.mem_cons_self _ _) hcond
      · rw [if_neg hcond] at hp
        exact hacc p hp

/-- Every winner recorded in the optimal-models map is the model of some
successful result of the input list. -/
theorem optimalModels_sound (results : List BenchmarkResult)
    (profile : HardwareProfile) :
    ∀ p ∈ generateLowSpecSummaryOptimalModels results profile,
      ∃ r ∈ results, r.Success = true ∧ p.2 = r.Model := by
  have hgroups := groupSuccessfulByTestCase_forall
    (fun r => r ∈ results ∧ r.Success = true) results (fun r hr hs => ⟨hr, hs⟩)
  refine foldl_collectOptimalStep_forall profile _
    (groupSuccessfulByTestCase results) [] ?_ ?_
  · intro kv hkv hne
    rcases findOptimalModelForUseCase_mem kv.2 profile with h | ⟨r, hr, he⟩
    · exact absurd h hne
    · obtain ⟨hrres, hrs⟩ := hgroups kv hkv r hr
      exact ⟨r, hrres, hrs, by simpa using he⟩
  · intro p hp
    exact absurd hp (List.not_mem_nil _)

/-- When two results tie on the penalized score (and the score is
positive), the earlier result in list order is kept. -/
theorem twoResultTieKeepsFirst (profile : HardwareProfile)
    (r1 r2 : BenchmarkResult)
    (heq : penalizedScore profile r1 = penalizedScore profile r2)
    (hpos : penalizedScore profile r1 > 0) :
    findOptimalModelForUseCase [r1, r2] profile = r1.Model := by
  simp only [findOptimalModelForUseCase, List.foldl_cons, List.foldl_nil, findOptimalStep]
  rw [if_pos hpos]
  rw [if_neg (show ¬ penalizedScore profile r2 > (r1.Model, penalizedScore profile r1).2 by
    rw [show (r1.Model, penalizedScore profile r1).2 = penalizedScore profile r1 from rfl,
      heq]
    exact lt_irrefl _)]

/-- Evaluation helper: penalized score of `resultTieA` under
`profileDesktop`. -/
theorem penalizedScore_tieA_eval :
    penalizedScore profileDesktop resultTieA = 7/2 := by
  simp only [penalizedScore, resultTieA, profileDesktop]
  norm_num
  rw [if_neg (by decide)]
  norm_num

/-- Evaluation helper: penalized score of `resultTieB` under
`profileDesktop`. -/
theorem penalizedScore_tieB_eval :
    penalizedScore profileDesktop resultTieB = 7/2 := by
  simp only [penalizedScore, resultTieB, resultTieA, profileDesktop]
  norm_num
  rw [if_neg (by decide)]
  norm_num

/-- C1: `runLowSpecTest` records the peak memory delta as the
system-available memory sampled AFTER the process exits minus the sample
taken BEFORE it starts (final − initial), the reverse of the specified
before − after; concretely, a process that shrinks available memory from
4000 MB to 3000 MB is recorded with delta -1000 MB instead of +1000 MB. -/
theorem peakMemoryDelta_after_minus_before :
    (∀ (model : String) (scenario : TestScenario) (profile : HardwareProfile)
        (obs : ExecObservation),
        (runLowSpecTest model scenario profile obs).PeakMemoryMB
          = obs.finalMemory - obs.initialMemory)
    ∧ (runLowSpecTest "llama2:7b"
        { Name := "Ultra-Fast Capture", UseCase := "capture", Priority := "speed",
          MaxTokens := 100,
          Prompt := "Summarize in one sentence: Fixed authentication bug in user service" }
        { AvailableRAM := 4096, ThermalProfile := "laptop", PowerProfile := "battery" }
        { execResult := Except.ok "Fixed an authentication bug in the user service.",
          responseTime := 3000000000, initialMemory := 4000,
          finalMemory := 3000 }).PeakMemoryMB = -1000 := by
  constructor
  · intro model scenario profile obs
    rcases obs with ⟨er, rt, im, fm⟩
    cases er <;> rfl
  · decide

/-- C2 counterexample: in `findBestModel` (tools/model_comparison.go) a
model that fails every invocation scores 0, which beats the initial best
score of -1, so when it is the only model tested it is selected as the
best model. -/
theorem findBestModel_selects_wholly_failing :
    resultsAllFailing.map ModelResult.Success = [false, false]
    ∧ resultsAllFailing.map ModelResult.Model = ["m", "m"]
    ∧ findBestModel resultsAllFailing = "m" := by
  refine ⟨by decide, by decide, ?_⟩
  have h1 : resultsAllFailing.foldl insertPerf []
      = [("m", { successRate := 0, avgResponseTime := 0, count := 2 })] := by decide
  have h2 : finalizePerf { successRate := 0, avgResponseTime := 0, count := 2 }
      = { successRate := 0, avgResponseTime := 0, count := 2 } := by
    simp only [finalizePerf]
    norm_num
  have e1 : findBestModel resultsAllFailing
      = (((resultsAllFailing.foldl insertPerf []).map
          (fun kv => (kv.1, finalizePerf kv.2))).foldl
          (fun (best : String × ℚ) kv =>
            if kv.2.successRate - durationSeconds kv.2.avgResponseTime / 100 > best.2 then
              (kv.1, kv.2.successRate - durationSeconds kv.2.avgResponseTime / 100)
            else best)
          ("", -1)).1 := rfl
  rw [e1, h1]
  simp only [List.map_cons, List.map_nil, h2, List.foldl_cons, List.foldl_nil]
  rw [if_pos (by norm_num [durationSeconds])]

/-- C2 (amended): in the low-spec ranking (`generateLowSpecSummary`),
only successful results are grouped, so a model all of whose results
have `Success = false` never appears as a best-model winner. -/
theorem lowspec_failing_model_never_winner (results : List BenchmarkResult)
    (profile : HardwareProfile) (m : String)
    (h : ∀ r ∈ results, r.Model = m → r.Success = false) :
    m ∉ (generateLowSpecSummaryOptimalModels results profile).map Prod.snd := by
  intro hmem
  obtain ⟨p, hp, hpm⟩ := List.mem_map.mp hmem
  obtain ⟨r, hr, hs, he⟩ := optimalModels_sound results profile p hp
  have hfalse := h r hr (by rw [← he, hpm])
  rw [hfalse] at hs
  exact absurd hs (by decide)

/-- Witness for `lowspec_failing_model_never_winner`: a single wholly
failing model yields no winner entry at all. -/
theorem lowspec_failing_model_never_winner_witness :
    lowSpecAllFailing.map BenchmarkResult.Success = [false]
    ∧ "m" ∉ (generateLowSpecSummaryOptimalModels lowSpecAllFailing
        profileDesktop).map Prod.snd :=
  ⟨by decide,
    lowspec_failing_model_never_winner lowSpecAllFailing profileDesktop "m" (by decide)⟩

/-- C3: the low-spec summary keys its optimal-models map by the
LOWERCASED SCENARIO NAME (`strings.ToLower(result.TestCase)`), not by the
scenario's use-case tag: a successful result of the "Ultra-Fast Capture"
scenario (use case "capture") is recorded under key
"ultra-fast capture", which differs from "capture". -/
theorem lowspec_groups_by_scenario_name :
    generateLowSpecSummaryOptimalModels [resultCaptureScenario] profileDesktop
      = [("ultra-fast capture", "m")]
    ∧ resultCaptureScenario.TestCase = "Ultra-Fast Capture"
    ∧ ("ultra-fast capture" : String) ≠ "capture" := by
  refine ⟨?_, by decide, by decide⟩
  have hg : groupSuccessfulByTestCase [resultCaptureScenario]
      = [("ultra-fast capture", [resultCaptureScenario])] := by decide
  simp only [generateLowSpecSummaryOptimalModels, hg, List.foldl_cons, List.foldl_nil,
    collectOptimalStep, findOptimal_capture_eval]
  norm_num
  decide

/-- C5 counterexample: two results of distinct models tie on the
penalized score while the second has the lower response time; the
ranking keeps the first, not the faster one. -/
theorem findOptimal_tie_ignores_response_time :
    penalizedScore profileDesktop resultTieA = penalizedScore profileDesktop resultTieB
    ∧ resultTieB.ResponseTime < resultTieA.ResponseTime
    ∧ resultTieA.Model = "A" ∧ resultTieB.Model = "B"
    ∧ findOptimalModelForUseCase [resultTieA, resultTieB] profileDesktop = "A" := by
  refine ⟨?_, by decide, by decide, by decide, ?_⟩
  · rw [penalizedScore_tieA_eval, penalizedScore_tieB_eval]
  · have h := twoResultTieKeepsFirst profileDesktop resultTieA resultTieB
      (by rw [penalizedScore_tieA_eval, penalizedScore_tieB_eval])
      (by rw [penalizedScore_tieA_eval]; norm_num)
    rw [h]
    decide

/-- C5 (amended): when two results attain the same positive penalized
score, `findOptimalModelForUseCase` keeps the one occurring earlier in
the result list; neither average response time nor failed-run counts are
consulted. -/
theorem findOptimal_tie_keeps_first_result (profile : HardwareProfile)
    (r1 r2 : BenchmarkResult)
    (heq : penalizedScore profile r1 = penalizedScore profile r2)
    (hpos : penalizedScore profile r1 > 0) :
    findOptimalModelForUseCase [r1, r2] profile = r1.Model :=
  twoResultTieKeepsFirst profile r1 r2 heq hpos

/-- Witness for `findOptimal_tie_keeps_first_result` at the concrete tied
pair `resultTieA`, `resultTieB`. -/
theorem findOptimal_tie_keeps_first_result_witness :
    findOptimalModelForUseCase [resultTieA, resultTieB] profileDesktop
      = resultTieA.Model :=
  findOptimal_tie_keeps_first_result profileDesktop resultTieA resultTieB
    (by rw [penalizedScore_tieA_eval, penalizedScore_tieB_eval])
    (by rw [penalizedScore_tieA_eval]; norm_num)

/-- C6 (amended): `assessOutputQuality` equals exactly the five-band
length-quotient value of the output's byte length; no secondary
boost or penalty for structure or vocabulary is applied. -/
theorem assessOutputQuality_eq_lengthBandScore (output useCase : String) :
    assessOutputQuality output useCase = lengthBandScore (goLen output) useCase := rfl

/-- C6 counterexample: an output with markdown headers and bullets and a
same-length output with neither receive identical quality scores for the
long-form "devlog" use case, so no structural adjustment exists. -/
theorem assessOutputQuality_ignores_structure :
    goContains "## A\n- B" "##" = true
    ∧ goContains "abcdefgh" "##" = false
    ∧ goContains "abcdefgh" "- " = false
    ∧ goLen "## A\n- B" = goLen "abcdefgh"
    ∧ assessOutputQuality "## A\n- B" "devlog" = assessOutputQuality "abcdefgh" "devlog" := by
  refine ⟨by decide, by decide, by decide, by decide, ?_⟩
  have h1 : goLen "## A\n- B" = 8 := by decide
  have h2 : goLen "abcdefgh" = 8 := by decide
  simp only [assessOutputQuality, h1, h2]

/-- C7 (amended): the uroboro tester's `generateConfigRecommendation`
always emits the fixed non-empty fallback chain
[mistral:latest, llama2:7b, orca-mini:3b] whatever the summary, while the
low-spec `generateRecommendedConfig` never sets any fallback model. -/
theorem fallback_chain_fixed_or_absent :
    (∀ summary : UroboroSummary,
        (generateConfigRecommendation summary).FallbackChain
          = ["mistral:latest", "llama2:7b", "orca-mini:3b"])
    ∧ (["mistral:latest", "llama2:7b", "orca-mini:3b"] : List String) ≠ []
    ∧ (∀ (results : List BenchmarkResult) (profile : HardwareProfile),
        (generateRecommendedConfig results profile).FallbackModel = "") := by
  refine ⟨fun summary => rfl, by decide, ?_⟩
  intro results profile
  unfold generateRecommendedConfig
  by_cases h : profile.AvailableRAM < 8192 <;>
    by_cases h2 : profile.ThermalProfile = "mobile" ∨ profile.ThermalProfile = "laptop" <;>
    simp [h, h2]

/-- C7 counterexample: the low-spec recommended configuration leaves the
fallback model empty even when a benchmark result succeeded and a
primary model was chosen. -/
theorem generateRecommendedConfig_fallback_empty :
    (generateRecommendedConfig configResults { AvailableRAM := 4096 }).FallbackModel = ""
    ∧ (generateRecommendedConfig configResults { AvailableRAM := 4096 }).PrimaryModel = "m" := by
  exact ⟨by decide, by decide⟩

/-- C10: every model name returned by the `ollama list` parsing of
`getAvailableModels` is free of the substring "embedding"; installed
models whose identifier contains "embedding" are excluded from
benchmarking. -/
theorem getAvailableModels_excludes_embedding (output m : String)
    (h : m ∈ getAvailableModels output) : goContains m "embedding" = false := by
  unfold getAvailableModels at h
  obtain ⟨line, hline, hparse⟩ := List.mem_filterMap.mp h
  unfold parseModelLine at hparse
  by_cases ht : goTrim line = ""
  · rw [if_pos ht] at hparse
    exact absurd hparse (by simp)
  · rw [if_neg ht] at hparse
    rcases hf : goFields line with _ | ⟨name, rest⟩
    · rw [hf] at hparse
      exact absurd hparse (by simp)
    · rw [hf] at hparse
      have hparse2 : (if goContains name "embedding" = true then (none : Option String)
          else some name) = some m := hparse
      by_cases hc : goContains name "embedding" = true
      · rw [if_pos hc] at hparse2
        exact absurd hparse2 (by simp)
      · rw [if_neg hc] at hparse2
        have hnm : name = m := by simpa using hparse2
        rw [← hnm]
        exact Bool.eq_false_iff.mpr hc

/-- Witness for `getAvailableModels_excludes_embedding` on a concrete
`ollama list` output containing an embedding model. -/
theorem getAvailableModels_excludes_embedding_witness :
    "llama2:7b" ∈ getAvailableModels
      "NAME  ID  SIZE\nllama2:7b  abc  3.8GB\nnomic-embedding-text  def  274MB\n"
    ∧ goContains "llama2:7b" "embedding" = false :=
  ⟨by decide,
    getAvailableModels_excludes_embedding
      "NAME  ID  SIZE\nllama2:7b  abc  3.8GB\nnomic-embedding-text  def  274MB\n"
      "llama2:7b" (by decide)⟩
